import Mathlib

/-!
Shallow embedding of the `bump` version-management core (src/version.rs and
src/bump.rs of launchfirestorm/bump) and proofs of the spec's claims about it.

Modelling conventions:
* Rust `u32` counters are modelled as `Nat` (the code only increments and
  zeroes them; no wraparound is exercised).
* The field `prefix` of the Rust structs is called `pfx` here (`prefix` is a
  Lean keyword).
* `chrono::Utc::now()` together with `.format(fmt)` is modelled by an explicit
  parameter `fmtTime : String → String` mapping a strftime format string to
  its rendering at the current instant; `get_time` mirrors the Rust helper.
* The `path : PathBuf` field of `Version` is omitted: it is filesystem
  bookkeeping that no transition or renderer reads.
* Rust methods `&mut self -> Result<(), BumpError>` are modelled as
  `Version → Version × Except BumpError Unit`, returning the (possibly
  mutated) record together with the result, so that mutation on error paths
  is observable exactly as in the source.
* The git subprocess adapter is modelled by a `GitState` record of the
  results the queried commands would return.
-/

/-- `[semver.format]` section (src/version.rs `SemVerFormatSection`). -/
structure SemVerFormatSection where
  pfx : String
  delimiter : String
  timestamp : Option String
deriving Repr, DecidableEq

/-- `[semver.version]` section (src/version.rs `SemVerVersionSection`). -/
structure SemVerVersionSection where
  major : Nat
  minor : Nat
  patch : Nat
  candidate : Nat
deriving Repr, DecidableEq

/-- `[semver.candidate]` section (src/version.rs `CandidateSection`). -/
structure CandidateSection where
  promotion : String
  delimiter : String
deriving Repr, DecidableEq

/-- `[semver.development]` section (src/version.rs `DevelopmentSection`). -/
structure DevelopmentSection where
  promotion : String
  delimiter : String
deriving Repr, DecidableEq

/-- SemVer configuration (src/version.rs `SemVerConfig`). -/
structure SemVerConfig where
  format : SemVerFormatSection
  version : SemVerVersionSection
  candidate : CandidateSection
  development : DevelopmentSection
deriving Repr, DecidableEq

/-- `[calver.conflict]` section (src/version.rs `CalVerConflictSection`). -/
structure CalVerConflictSection where
  resolution : String
  suffix : Nat
  delimiter : String
deriving Repr, DecidableEq

/-- `[calver.format]` section (src/version.rs `CalVerFormatSection`). -/
structure CalVerFormatSection where
  pfx : String
  delimiter : String
  year : String
  month : Option String
  day : Option String
  minor : Option Bool
  micro : Option Bool
deriving Repr, DecidableEq

/-- `[calver.version]` section (src/version.rs `CalVerVersionSection`). -/
structure CalVerVersionSection where
  year : String
  month : Option String
  day : Option String
  minor : Option Nat
  micro : Option Nat
deriving Repr, DecidableEq

/-- CalVer configuration (src/version.rs `CalVerConfig`). -/
structure CalVerConfig where
  format : CalVerFormatSection
  version : CalVerVersionSection
  conflict : CalVerConflictSection
deriving Repr, DecidableEq

/-- Configuration enum (src/version.rs `Config`). -/
inductive Config where
  | SemVer (c : SemVerConfig)
  | CalVer (c : CalVerConfig)
deriving Repr, DecidableEq

/-- Version data enum (src/version.rs `VersionType`). -/
inductive VersionType where
  | SemVer (major minor patch candidate : Nat)
  | CalVer (suffix : Nat)
deriving Repr, DecidableEq

/-- In-memory version record (src/version.rs `Version`), minus the `path`
field (filesystem bookkeeping, never read by transitions or renderers). -/
structure Version where
  pfx : String
  timestamp : Option String
  version_type : VersionType
  config : Config
deriving Repr, DecidableEq

/-- src/bump.rs `PointType`. -/
inductive PointType where
  | Major
  | Minor
  | Patch
deriving Repr, DecidableEq

/-- Requested bump kind (src/bump.rs `BumpType`; `Pfx` is the source's
`Prefix(String)` variant). -/
inductive BumpType where
  | Pfx (s : String)
  | Point (p : PointType)
  | Candidate
  | Release
  | Calendar
  | Base
deriving Repr, DecidableEq

/-- Error taxonomy (src/bump.rs `BumpError`); the payloads of the I/O and
TOML variants are reduced to their message strings. -/
inductive BumpError where
  | IoError (msg : String)
  | ParseError (msg : String)
  | TomlError (msg : String)
  | LogicError (msg : String)
  | Git (msg : String)
deriving Repr, DecidableEq

/-- src/version.rs `get_time`: render "now" with the configured strftime
format, if one is configured. -/
def get_time (fmtTime : String → String) (format : Option String) : Option String :=
  format.map fmtTime

/-- src/version.rs `default_semver_config`. -/
def default_semver_config (pfx : String) (major minor patch candidate : Nat) : Config :=
  Config.SemVer
    { format := { pfx := pfx, delimiter := ".", timestamp := some "%Y-%m-%d %H:%M:%S %Z" }
      version := { major := major, minor := minor, patch := patch, candidate := candidate }
      candidate := { promotion := "minor", delimiter := "-rc" }
      development := { promotion := "git_sha", delimiter := "+" } }

/-- The candidate-promotion match inside `Version::bump` (src/version.rs,
`BumpType::Candidate` arm, `candidate == 0` branch): which numeric triple a
new candidate line starts from. Unrecognized strategies default to minor. -/
def promote (promotion : String) (major minor patch : Nat) : Nat × Nat × Nat :=
  match promotion with
  | "major" => (major + 1, 0, 0)
  | "minor" => (major, minor + 1, 0)
  | "patch" => (major, minor, patch + 1)
  | _ => (major, minor + 1, 0)

/-- The `is_same_date` computation inside `Version::bump`'s `Calendar` arm
(src/version.rs): today's components, formatted per the format section
(absent format ⇒ absent component), compared against the stored ones. -/
def calver_same_date (fmtTime : String → String) (cc : CalVerConfig) : Bool :=
  (fmtTime cc.format.year == cc.version.year)
    && (cc.format.month.map fmtTime == cc.version.month)
    && (cc.format.day.map fmtTime == cc.version.day)

/-- src/version.rs `Version::bump`. Returns the record after the call (the
Rust method mutates `&mut self`) together with the `Result`. Note the SemVer
branch assigns `self.timestamp` before dispatching on the bump kind, so even
its error arms return a record with a refreshed timestamp. -/
def Version.bump (fmtTime : String → String) (v : Version) (bump_type : BumpType) :
    Version × Except BumpError Unit :=
  match v.version_type, v.config with
  | .SemVer major minor patch candidate, .SemVer semver_config =>
    let v1 : Version := { v with timestamp := get_time fmtTime semver_config.format.timestamp }
    match bump_type with
    | .Pfx p => ({ v1 with pfx := p }, .ok ())
    | .Point .Major => ({ v1 with version_type := .SemVer (major + 1) 0 0 0 }, .ok ())
    | .Point .Minor => ({ v1 with version_type := .SemVer major (minor + 1) 0 0 }, .ok ())
    | .Point .Patch => ({ v1 with version_type := .SemVer major minor (patch + 1) 0 }, .ok ())
    | .Candidate =>
      if candidate > 0 then
        ({ v1 with version_type := .SemVer major minor patch (candidate + 1) }, .ok ())
      else
        match promote semver_config.candidate.promotion major minor patch with
        | (major2, minor2, patch2) =>
          ({ v1 with version_type := .SemVer major2 minor2 patch2 1 }, .ok ())
    | .Release =>
      if candidate = 0 then
        (v1, .error (.LogicError "Cannot release without a candidate"))
      else
        ({ v1 with version_type := .SemVer major minor patch 0 }, .ok ())
    | .Calendar =>
      (v1, .error (.LogicError "SemVer does not support --calendar bump"))
    | .Base => (v1, .ok ())
  | .CalVer suffix, .CalVer calver_config =>
    match bump_type with
    | .Calendar =>
      let new_year := fmtTime calver_config.format.year
      let new_month := calver_config.format.month.map fmtTime
      let new_day := calver_config.format.day.map fmtTime
      if calver_same_date fmtTime calver_config then
        match calver_config.conflict.resolution with
        | "suffix" => ({ v with version_type := .CalVer (suffix + 1) }, .ok ())
        | "overwrite" => (v, .ok ())
        | _ => ({ v with version_type := .CalVer (suffix + 1) }, .ok ())
      else
        ({ v with
            version_type := .CalVer 0
            config := .CalVer { calver_config with
              version := { calver_config.version with
                year := new_year
                month := new_month
                day := new_day
                minor :=
                  if calver_config.format.minor = some true then
                    some (match calver_config.version.minor with
                      | none => 0
                      | some n => n + 1)
                  else none
                micro :=
                  if calver_config.format.micro = some true then
                    some (match calver_config.version.micro with
                      | none => 0
                      | some n => n + 1)
                  else none } } }, .ok ())
    | _ => (v, .error (.LogicError "CalVer only supports --calendar bump type"))
  | _, _ =>
    -- the source marks a version_type/config scheme mismatch `unreachable!`
    (v, .error (.LogicError "unreachable: version type and config mismatch"))

/-- The joined CalVer component list (the `parts` vector built identically in
`Version::to_string` and `Version::fully_qualified_string`, src/version.rs):
stored year, then stored month/day/minor/micro when present, joined with the
format delimiter. -/
def calver_version_str (cc : CalVerConfig) : String :=
  String.intercalate cc.format.delimiter
    ([cc.version.year]
      ++ cc.version.month.toList
      ++ cc.version.day.toList
      ++ (cc.version.minor.map toString).toList
      ++ (cc.version.micro.map toString).toList)

/-- src/version.rs `Version::to_string`: render the record for a given bump
kind. -/
def Version.to_string (v : Version) (bump_type : BumpType) : String :=
  match v.version_type, v.config with
  | .SemVer major minor patch candidate, .SemVer semver_config =>
    let base :=
      v.pfx ++ toString major ++ "." ++ toString minor ++ "." ++ toString patch
    let candidate_str := base ++ semver_config.candidate.delimiter ++ toString candidate
    match bump_type with
    | .Pfx _ | .Point _ | .Release => base
    | .Candidate => candidate_str
    | .Base => toString major ++ "." ++ toString minor ++ "." ++ toString patch
    | .Calendar => base
  | .CalVer suffix, .CalVer calver_config =>
    if suffix > 0 then
      calver_config.format.pfx ++ calver_version_str calver_config
        ++ calver_config.conflict.delimiter ++ toString suffix
    else
      calver_config.format.pfx ++ calver_version_str calver_config
  | _, _ => ""  -- `unreachable!` in the source

/-- Outcome of the git subprocess queries the renderer consults
(src/bump.rs `is_git_repository`, `get_git_tag(false)`,
`get_git_commit_sha`, `get_git_branch`); `Except` errors carry the failure
message that `run_git` would wrap in `BumpError::Git`. -/
structure GitState where
  is_repo : Bool
  exact_tag : Except String String
  sha : Except String String
  branch : Except String String

/-- `Result::is_ok`. -/
def except_is_ok {ε α : Type} : Except ε α → Bool
  | .ok _ => true
  | .error _ => false

/-- src/bump.rs `get_development_suffix`: the build-metadata fragment per the
development promotion policy. -/
def get_development_suffix (git : GitState) (version : Version) : Except BumpError String :=
  match version.config with
  | .SemVer semver_config =>
    match semver_config.development.promotion with
    | "git_sha" => git.sha.mapError BumpError.Git
    | "branch" => git.branch.mapError BumpError.Git
    | "full" => do
      let branch ← git.branch.mapError BumpError.Git
      let sha ← git.sha.mapError BumpError.Git
      pure (branch ++ "_" ++ sha)
    | _ => git.sha.mapError BumpError.Git  -- default to git_sha
  | .CalVer _ =>
    .error (.LogicError "CalVer does not support development suffixes")

/-- src/version.rs `Version::fully_qualified_string`: the build string, which
may consult source control. -/
def Version.fully_qualified_string (git : GitState) (v : Version) :
    Except BumpError String :=
  match v.version_type, v.config with
  | .SemVer major minor patch candidate, .SemVer semver_config =>
    if !git.is_repo then
      if candidate > 0 then
        .ok (v.pfx ++ toString major ++ "." ++ toString minor ++ "." ++ toString patch
          ++ semver_config.candidate.delimiter ++ toString candidate)
      else
        .ok (v.pfx ++ toString major ++ "." ++ toString minor ++ "." ++ toString patch)
    else
      let tagged := except_is_ok git.exact_tag
      let base :=
        v.pfx ++ toString major ++ "." ++ toString minor ++ "." ++ toString patch
      let candidate_str :=
        base ++ semver_config.candidate.delimiter ++ toString candidate
      match tagged, candidate with
      | true, 0 => .ok base
      | true, _ => .ok candidate_str
      | false, 0 => do
        let s ← get_development_suffix git v
        pure (base ++ semver_config.development.delimiter ++ s)
      | false, _ => do
        let s ← get_development_suffix git v
        pure (candidate_str ++ semver_config.development.delimiter ++ s)
  | .CalVer suffix, .CalVer calver_config =>
    if suffix > 0 then
      .ok (calver_config.format.pfx ++ calver_version_str calver_config
        ++ calver_config.conflict.delimiter ++ toString suffix)
    else
      .ok (calver_config.format.pfx ++ calver_version_str calver_config)
  | _, _ => .error (.LogicError "unreachable: version type and config mismatch")

/-- The capture groups of the free-form version regex in
src/version.rs `Version::from_string`. -/
structure ReCaptures where
  pfx : String
  majorS : String
  minorS : String
  patchS : String
  candidateS : Option String
deriving Repr, DecidableEq

/-- ASCII letter, the regex class `[a-zA-Z]`. -/
def isAsciiAlpha (c : Char) : Bool :=
  ('a' ≤ c && c ≤ 'z') || ('A' ≤ c && c ≤ 'Z')

/-- The codepoint ranges of the Unicode general category `Nd` (decimal
digit), Unicode 15.0. The Rust regex crate runs with Unicode mode on by
default, so the `\d` of the source pattern is `\p{Nd}`, not ASCII `0-9`. -/
def ndRanges : List (Nat × Nat) :=
  [(48, 57), (1632, 1641), (1776, 1785), (1984, 1993), (2406, 2415), (2534, 2543),
   (2662, 2671), (2790, 2799), (2918, 2927), (3046, 3055), (3174, 3183), (3302, 3311),
   (3430, 3439), (3558, 3567), (3664, 3673), (3792, 3801), (3872, 3881), (4160, 4169),
   (4240, 4249), (6112, 6121), (6160, 6169), (6470, 6479), (6608, 6617), (6784, 6793),
   (6800, 6809), (6992, 7001), (7088, 7097), (7232, 7241), (7248, 7257), (42528, 42537),
   (43216, 43225), (43264, 43273), (43472, 43481), (43504, 43513), (43600, 43609),
   (44016, 44025), (65296, 65305), (66720, 66729), (68912, 68921), (69734, 69743),
   (69872, 69881), (69942, 69951), (70096, 70105), (70384, 70393), (70736, 70745),
   (70864, 70873), (71248, 71257), (71360, 71369), (71472, 71481), (71904, 71913),
   (72016, 72025), (72784, 72793), (73040, 73049), (73120, 73129), (73552, 73561),
   (92768, 92777), (92864, 92873), (93008, 93017), (120782, 120831), (123200, 123209),
   (123632, 123641), (124144, 124153), (125264, 125273), (130032, 130041)]

/-- Unicode decimal digit, the regex class `\d` = `\p{Nd}` of the Rust regex
crate's default Unicode mode. -/
def isNd (c : Char) : Bool :=
  ndRanges.any (fun r => r.1 ≤ c.toNat && c.toNat ≤ r.2)

/-- Matching of the anchored regex
`^([a-zA-Z]*)(\d+)\.(\d+)\.(\d+)(?:-rc(\d+))?` of
src/version.rs `Version::from_string` against an input string, with `\d`
the Unicode class `\p{Nd}` (`isNd`). The character classes of adjacent
greedy pieces are disjoint (no ASCII letter, `.`, `-`, `r` or `c` is in
`Nd`), so greedy left-to-right scanning without backtracking is exact; the
pattern is not anchored at the end, so trailing input is ignored. -/
def regex_captures (s : String) : Option ReCaptures :=
  let cs := s.toList
  let pfxCs := cs.takeWhile isAsciiAlpha
  let rest0 := cs.dropWhile isAsciiAlpha
  let majCs := rest0.takeWhile isNd
  let rest1 := rest0.dropWhile isNd
  if majCs.isEmpty then none
  else
    match rest1 with
    | '.' :: rest2 =>
      let minCs := rest2.takeWhile isNd
      let rest3 := rest2.dropWhile isNd
      if minCs.isEmpty then none
      else
        match rest3 with
        | '.' :: rest4 =>
          let patCs := rest4.takeWhile isNd
          let rest5 := rest4.dropWhile isNd
          if patCs.isEmpty then none
          else
            let cand :=
              match rest5 with
              | '-' :: 'r' :: 'c' :: rest6 =>
                let candCs := rest6.takeWhile isNd
                if candCs.isEmpty then none else some (String.mk candCs)
              | _ => none
            some
              { pfx := String.mk pfxCs
                majorS := String.mk majCs
                minorS := String.mk minCs
                patchS := String.mk patCs
                candidateS := cand }
        | _ => none
    | _ => none

/-- Decimal value of an ASCII digit list. -/
def digitsToNat (cs : List Char) : Nat :=
  cs.foldl (fun acc c => acc * 10 + (c.toNat - 48)) 0

/-- Rust `str::parse::<u32>` (`u32::from_str`): an optional leading `+` sign
followed by one or more ASCII digits `0-9` — anything else, including a
non-ASCII Unicode decimal digit the regex may have captured, is rejected —
with failure on 32-bit overflow. -/
def parse_u32 (s : String) : Option Nat :=
  let ds :=
    match s.toList with
    | '+' :: rest => rest
    | cs => cs
  if ds.isEmpty then none
  else if ds.all Char.isDigit then
    if digitsToNat ds ≤ 4294967295 then some (digitsToNat ds) else none
  else none

/-- src/version.rs `Version::from_string`: parse a free-form version string
(the `path` argument is dropped with the `path` field). -/
def Version.from_string (version_str : String) : Except BumpError Version :=
  match regex_captures version_str with
  | none => .error (.ParseError "invalid version format")
  | some caps =>
    -- the `prefix` group always participates in a successful match (it can
    -- be empty), so the source's `map_or("v", ...)` default is never taken
    let pfx := caps.pfx
    match parse_u32 caps.majorS with
    | none => .error (.ParseError "invalid MAJOR value")
    | some major =>
      match parse_u32 caps.minorS with
      | none => .error (.ParseError "invalid MINOR value")
      | some minor =>
        match parse_u32 caps.patchS with
        | none => .error (.ParseError "invalid PATCH value")
        | some patch =>
          let candidateR : Except BumpError Nat :=
            match caps.candidateS with
            | none => .ok 0
            | some cs =>
              match parse_u32 cs with
              | none => .error (.ParseError "invalid CANDIDATE value")
              | some c => .ok c
          match candidateR with
          | .error e => .error e
          | .ok candidate =>
            .ok
              { pfx := pfx
                timestamp := none
                version_type := .SemVer major minor patch candidate
                config := default_semver_config pfx major minor patch candidate }

/-! Concrete records and adapter states used to instantiate the theorems. -/

/-- A SemVer configuration with the defaults of `bump init` and a configured
build timestamp. -/
def wsc_w : SemVerConfig :=
  { format := { pfx := "v", delimiter := ".", timestamp := some "%Y-%m-%d" }
    version := { major := 1, minor := 2, patch := 3, candidate := 0 }
    candidate := { promotion := "minor", delimiter := "-rc" }
    development := { promotion := "git_sha", delimiter := "+" } }

/-- The spec's running example record `v1.2.3`, candidate 0, promotion
`minor`, with no timestamp rendered yet. -/
def wv_w : Version :=
  { pfx := "v", timestamp := none, version_type := .SemVer 1 2 3 0, config := .SemVer wsc_w }

/-- The same record mid-candidate (`v1.2.3-rc4`). -/
def wv_c : Version :=
  { pfx := "v", timestamp := none, version_type := .SemVer 1 2 3 4, config := .SemVer wsc_w }

/-- A fixed rendering of "now": every strftime format renders as `"TS"`. -/
def wfmt_w : String → String := fun _ => "TS"

/-- A CalVer configuration (year+month+day declared) whose conflict
resolution is `"overwrite"`, with stored date 2024-01-15. -/
def cc_ow : CalVerConfig :=
  { format := { pfx := "", delimiter := ".", year := "%Y", month := some "%m",
                day := some "%d", minor := none, micro := none }
    version := { year := "2024", month := some "01", day := some "15",
                 minor := none, micro := none }
    conflict := { resolution := "overwrite", suffix := 0, delimiter := "-" } }

/-- The CalVer record carrying `cc_ow`. -/
def cv_ow : Version :=
  { pfx := "", timestamp := none, version_type := .CalVer 0, config := .CalVer cc_ow }

/-- Like `cc_ow` but with the default `"suffix"` resolution. -/
def cc_sfx : CalVerConfig :=
  { cc_ow with conflict := { cc_ow.conflict with resolution := "suffix" } }

/-- The CalVer record carrying `cc_sfx`. -/
def cv_sfx : Version :=
  { pfx := "", timestamp := none, version_type := .CalVer 0, config := .CalVer cc_sfx }

/-- A simulated clock on 2024-01-15: matches the stored date of `cc_ow` and
`cc_sfx` on every declared component. -/
def calfmt_w : String → String := fun f =>
  if f = "%Y" then "2024" else if f = "%m" then "01" else "15"

/-- A simulated clock one day later, 2024-01-16. -/
def calfmt_w2 : String → String := fun f =>
  if f = "%Y" then "2024" else if f = "%m" then "01" else "16"

/-- A git adapter state: inside a repository, current commit not exactly
tagged, with a commit id and a branch available. -/
def git_w : GitState :=
  { is_repo := true, exact_tag := .error "fatal: no tag exactly matches"
    sha := .ok "abc1234", branch := .ok "main" }

/-! Theorems -/

/-- C5: for every SemVer record, `Point(Major)` increments major and zeroes
minor, patch and candidate; `Point(Minor)` increments minor and zeroes patch
and candidate; `Point(Patch)` increments patch and zeroes candidate; the
components not mentioned (and the prefix and configuration) are unchanged,
the bump succeeding with the rendered timestamp refreshed per
configuration. -/
theorem point_bump_spec (fmtTime : String → String) (v : Version)
    (major minor patch candidate : Nat) (sc : SemVerConfig)
    (hv : v.version_type = .SemVer major minor patch candidate)
    (hc : v.config = .SemVer sc) :
    v.bump fmtTime (.Point .Major) =
      ({ v with timestamp := get_time fmtTime sc.format.timestamp
                version_type := .SemVer (major + 1) 0 0 0 }, .ok ())
    ∧ v.bump fmtTime (.Point .Minor) =
      ({ v with timestamp := get_time fmtTime sc.format.timestamp
                version_type := .SemVer major (minor + 1) 0 0 }, .ok ())
    ∧ v.bump fmtTime (.Point .Patch) =
      ({ v with timestamp := get_time fmtTime sc.format.timestamp
                version_type := .SemVer major minor (patch + 1) 0 }, .ok ()) := by
  refine ⟨?_, ?_, ?_⟩ <;> simp [Version.bump, hv, hc]

/-- Witness for C5: the example record `v1.2.3` bumped with `Point(Major)`
becomes `2.0.0`, with a refreshed timestamp and nothing else changed. -/
theorem point_bump_spec_witness :
    wv_w.version_type = .SemVer 1 2 3 0
    ∧ wv_w.config = .SemVer wsc_w
    ∧ wv_w.bump wfmt_w (.Point .Major) =
      ({ wv_w with timestamp := get_time wfmt_w wsc_w.format.timestamp
                   version_type := .SemVer 2 0 0 0 }, .ok ()) :=
  ⟨rfl, rfl, (point_bump_spec wfmt_w wv_w 1 2 3 0 wsc_w rfl rfl).1⟩

/-- C2 counterexample: the `Release` bump on a SemVer record with
`candidate == 0` does return the logic error, but the record is not left
unchanged: the rendered timestamp is overwritten before the candidate check
(here from `none` to `some "TS"`). -/
theorem release_error_mutates_timestamp :
    (wv_w.bump wfmt_w .Release).2 =
      .error (.LogicError "Cannot release without a candidate")
    ∧ (wv_w.bump wfmt_w .Release).1 ≠ wv_w :=
  ⟨rfl, by decide⟩

/-- C2 (amended): for every SemVer record with `candidate == 0`, the
`Release` bump fails with the logic error "Cannot release without a
candidate"; the numeric components, prefix and configuration are unchanged,
but the rendered timestamp is refreshed (per the configured format) before
the check. -/
theorem release_without_candidate_error (fmtTime : String → String) (v : Version)
    (major minor patch : Nat) (sc : SemVerConfig)
    (hv : v.version_type = .SemVer major minor patch 0)
    (hc : v.config = .SemVer sc) :
    v.bump fmtTime .Release =
      ({ v with timestamp := get_time fmtTime sc.format.timestamp },
        .error (.LogicError "Cannot release without a candidate")) := by
  simp [Version.bump, hv, hc]

/-- Witness for C2 (amended): applied to the example record `v1.2.3`,
candidate 0. -/
theorem release_without_candidate_error_witness :
    wv_w.version_type = .SemVer 1 2 3 0
    ∧ wv_w.config = .SemVer wsc_w
    ∧ wv_w.bump wfmt_w .Release =
      ({ wv_w with timestamp := some "TS" },
        .error (.LogicError "Cannot release without a candidate")) :=
  ⟨rfl, rfl, release_without_candidate_error wfmt_w wv_w 1 2 3 wsc_w rfl rfl⟩

/-- C10: a CalVer record with conflict resolution `"overwrite"`, bumped with
`Calendar` on a day whose configured components all equal the stored ones,
is left entirely unchanged: the revision counter is not incremented and the
stored date components are untouched. -/
theorem calendar_overwrite_same_day_noop (fmtTime : String → String) (v : Version)
    (sfx : Nat) (cc : CalVerConfig)
    (hv : v.version_type = .CalVer sfx)
    (hc : v.config = .CalVer cc)
    (hres : cc.conflict.resolution = "overwrite")
    (hsame : calver_same_date fmtTime cc = true) :
    v.bump fmtTime .Calendar = (v, .ok ()) := by
  simp [Version.bump, hv, hc, hsame, hres]

/-- Witness for C10: the stored date 2024-01-15 bumped on simulated
2024-01-15 under `"overwrite"`. -/
theorem calendar_overwrite_same_day_noop_witness :
    cv_ow.version_type = .CalVer 0
    ∧ cv_ow.config = .CalVer cc_ow
    ∧ cc_ow.conflict.resolution = "overwrite"
    ∧ calver_same_date calfmt_w cc_ow = true
    ∧ cv_ow.bump calfmt_w .Calendar = (cv_ow, .ok ()) :=
  ⟨rfl, rfl, rfl, by decide,
    calendar_overwrite_same_day_noop calfmt_w cv_ow 0 cc_ow rfl rfl rfl (by decide)⟩

/-- C1 counterexample: a CalVer record whose conflict resolution is
`"overwrite"`, bumped on a day matching all configured components, keeps
`revision == 0` instead of incrementing it to 1 as the claim requires of
every CalVer record. -/
theorem calendar_overwrite_refutes_increment :
    calver_same_date calfmt_w cc_ow = true
    ∧ (cv_ow.bump calfmt_w .Calendar).1.version_type = .CalVer 0
    ∧ (VersionType.CalVer 0 : VersionType) ≠ .CalVer 1 := by
  refine ⟨by decide, rfl, by decide⟩

/-- C1 (amended): for every CalVer record whose conflict resolution is not
`"overwrite"` (so `"suffix"` or any unrecognized string), a `Calendar` bump
compares today's formatted components (only those the format section
declares) against the stored ones: if they all match, the revision counter
is incremented by one and nothing else in the record changes; if any
differs, the result succeeds with the revision counter reset to 0 and the
stored year/month/day replaced by today's formatted values. -/
theorem calendar_bump_non_overwrite (fmtTime : String → String) (v : Version)
    (sfx : Nat) (cc : CalVerConfig)
    (hv : v.version_type = .CalVer sfx)
    (hc : v.config = .CalVer cc)
    (hres : cc.conflict.resolution ≠ "overwrite") :
    (calver_same_date fmtTime cc = true →
      v.bump fmtTime .Calendar = ({ v with version_type := .CalVer (sfx + 1) }, .ok ()))
    ∧ (calver_same_date fmtTime cc = false →
      (v.bump fmtTime .Calendar).2 = .ok ()
      ∧ (v.bump fmtTime .Calendar).1.version_type = .CalVer 0
      ∧ ∃ cc2 : CalVerConfig,
          (v.bump fmtTime .Calendar).1.config = .CalVer cc2
          ∧ cc2.version.year = fmtTime cc.format.year
          ∧ cc2.version.month = cc.format.month.map fmtTime
          ∧ cc2.version.day = cc.format.day.map fmtTime) := by
  constructor
  · intro hsame
    simp only [Version.bump, hv, hc, hsame, if_true]
    split
    · rfl
    · next heq => exact absurd heq hres
    · rfl
  · intro hdiff
    simp [Version.bump, hv, hc, hdiff]

/-- Witness for C1 (amended): under the `"suffix"` resolution, the stored
date 2024-01-15 bumped on simulated 2024-01-15 yields revision 1 with
nothing else changed, and bumped on simulated 2024-01-16 yields revision 0
with the stored day replaced by "16". -/
theorem calendar_bump_non_overwrite_witness :
    cv_sfx.version_type = .CalVer 0
    ∧ cv_sfx.config = .CalVer cc_sfx
    ∧ cc_sfx.conflict.resolution ≠ "overwrite"
    ∧ calver_same_date calfmt_w cc_sfx = true
    ∧ cv_sfx.bump calfmt_w .Calendar =
        ({ cv_sfx with version_type := .CalVer 1 }, .ok ())
    ∧ calver_same_date calfmt_w2 cc_sfx = false
    ∧ (cv_sfx.bump calfmt_w2 .Calendar).2 = .ok ()
    ∧ (cv_sfx.bump calfmt_w2 .Calendar).1.version_type = .CalVer 0 := by
  have h := calendar_bump_non_overwrite calfmt_w cv_sfx 0 cc_sfx rfl rfl (by decide)
  have h2 := calendar_bump_non_overwrite calfmt_w2 cv_sfx 0 cc_sfx rfl rfl (by decide)
  have hdiff := (h2.2 (by decide))
  exact ⟨rfl, rfl, by decide, by decide, h.1 (by decide), by decide, hdiff.1, hdiff.2.1⟩

/-- C3: for every SemVer record, the `Candidate` bump with `candidate > 0`
increments the candidate counter only (major/minor/patch untouched); with
`candidate == 0` it applies the promotion policy exactly once and sets the
candidate counter to 1, where the policy `"major"` increments major and
zeroes minor and patch, `"minor"` increments minor and zeroes patch,
`"patch"` increments patch, and any unrecognized policy string behaves as
`"minor"`. -/
theorem candidate_bump_spec (fmtTime : String → String) (v : Version)
    (major minor patch candidate : Nat) (sc : SemVerConfig)
    (hv : v.version_type = .SemVer major minor patch candidate)
    (hc : v.config = .SemVer sc) :
    (candidate > 0 →
      v.bump fmtTime .Candidate =
        ({ v with timestamp := get_time fmtTime sc.format.timestamp
                  version_type := .SemVer major minor patch (candidate + 1) }, .ok ()))
    ∧ (candidate = 0 →
      v.bump fmtTime .Candidate =
        ({ v with timestamp := get_time fmtTime sc.format.timestamp
                  version_type :=
                    .SemVer (promote sc.candidate.promotion major minor patch).1
                      (promote sc.candidate.promotion major minor patch).2.1
                      (promote sc.candidate.promotion major minor patch).2.2 1 }, .ok ()))
    ∧ promote "major" major minor patch = (major + 1, 0, 0)
    ∧ promote "minor" major minor patch = (major, minor + 1, 0)
    ∧ promote "patch" major minor patch = (major, minor, patch + 1)
    ∧ (sc.candidate.promotion ≠ "major" → sc.candidate.promotion ≠ "minor" →
        sc.candidate.promotion ≠ "patch" →
        promote sc.candidate.promotion major minor patch = (major, minor + 1, 0)) := by
  refine ⟨?_, ?_, rfl, rfl, rfl, ?_⟩
  · intro hpos
    simp [Version.bump, hv, hc, Nat.pos_iff_ne_zero.mp hpos]
  · intro hzero
    subst hzero
    simp [Version.bump, hv, hc]
  · intro h1 h2 h3
    unfold promote
    split <;> simp_all

/-- Witness for C3: the example record `v1.2.3`, candidate 0, promotion
`"minor"`, becomes `1.3.0` with candidate 1. -/
theorem candidate_bump_spec_witness :
    wv_w.version_type = .SemVer 1 2 3 0
    ∧ wv_w.config = .SemVer wsc_w
    ∧ wv_w.bump wfmt_w .Candidate =
        ({ wv_w with timestamp := some "TS"
                     version_type := .SemVer 1 3 0 1 }, .ok ()) := by
  have h := (candidate_bump_spec wfmt_w wv_w 1 2 3 0 wsc_w rfl rfl).2.1 rfl
  exact ⟨rfl, rfl, by simpa using h⟩

/-- C4 counterexample: requesting `Calendar` on a SemVer record does return
the logic error, but the record is mutated on the way: the rendered
timestamp is overwritten before the bump kinds are dispatched (here from
`none` to `some "TS"`). -/
theorem calendar_on_semver_mutates_timestamp :
    (wv_w.bump wfmt_w .Calendar).2 =
      .error (.LogicError "SemVer does not support --calendar bump")
    ∧ (wv_w.bump wfmt_w .Calendar).1 ≠ wv_w :=
  ⟨rfl, by decide⟩

/-- C4 (amended): a bump kind incompatible with the record's scheme is never
silently ignored. On a CalVer record, `SetPrefix`, `Point`, `Candidate` and
`Release` all fail with the logic error "CalVer only supports --calendar
bump type" (naming the supported bump kind) and leave the record unchanged.
On a SemVer record, `Calendar` fails with the logic error "SemVer does not
support --calendar bump" (naming the rejected bump kind); the numeric
components, prefix and configuration are unchanged, but the rendered
timestamp is refreshed before the error is returned. -/
theorem scheme_mismatch_bump_spec (fmtTime : String → String) (v : Version) :
    (∀ sfx cc, v.version_type = .CalVer sfx → v.config = .CalVer cc →
      (∀ p, v.bump fmtTime (.Pfx p) =
        (v, .error (.LogicError "CalVer only supports --calendar bump type")))
      ∧ (∀ pt, v.bump fmtTime (.Point pt) =
        (v, .error (.LogicError "CalVer only supports --calendar bump type")))
      ∧ v.bump fmtTime .Candidate =
        (v, .error (.LogicError "CalVer only supports --calendar bump type"))
      ∧ v.bump fmtTime .Release =
        (v, .error (.LogicError "CalVer only supports --calendar bump type")))
    ∧ (∀ major minor patch candidate sc,
      v.version_type = .SemVer major minor patch candidate → v.config = .SemVer sc →
      v.bump fmtTime .Calendar =
        ({ v with timestamp := get_time fmtTime sc.format.timestamp },
          .error (.LogicError "SemVer does not support --calendar bump"))) := by
  constructor
  · intro sfx cc hv hc
    refine ⟨fun p => ?_, fun pt => ?_, ?_, ?_⟩ <;> simp [Version.bump, hv, hc]
  · intro major minor patch candidate sc hv hc
    simp [Version.bump, hv, hc]

/-- Witness for C4 (amended): a CalVer record rejects `Release` unchanged,
and the SemVer example record rejects `Calendar` with only the timestamp
refreshed. -/
theorem scheme_mismatch_bump_spec_witness :
    cv_ow.version_type = .CalVer 0
    ∧ cv_ow.config = .CalVer cc_ow
    ∧ cv_ow.bump wfmt_w .Release =
        (cv_ow, .error (.LogicError "CalVer only supports --calendar bump type"))
    ∧ wv_w.version_type = .SemVer 1 2 3 0
    ∧ wv_w.config = .SemVer wsc_w
    ∧ wv_w.bump wfmt_w .Calendar =
        ({ wv_w with timestamp := some "TS" },
          .error (.LogicError "SemVer does not support --calendar bump")) := by
  have h1 := ((scheme_mismatch_bump_spec wfmt_w cv_ow).1 0 cc_ow rfl rfl).2.2.2
  have h2 := (scheme_mismatch_bump_spec wfmt_w wv_w).2 1 2 3 0 wsc_w rfl rfl
  exact ⟨rfl, rfl, h1, rfl, rfl, by simpa using h2⟩

/-- C7: for every SemVer record, rendering with kind `SetPrefix`, `Point` or
`Release` yields exactly `prefix ++ major ++ "." ++ minor ++ "." ++ patch`
with no candidate information; kind `Candidate` appends the candidate
delimiter and the candidate counter; kind `Base` drops the prefix. -/
theorem to_string_spec (v : Version)
    (major minor patch candidate : Nat) (sc : SemVerConfig)
    (hv : v.version_type = .SemVer major minor patch candidate)
    (hc : v.config = .SemVer sc) :
    (∀ s, v.to_string (.Pfx s) =
      v.pfx ++ toString major ++ "." ++ toString minor ++ "." ++ toString patch)
    ∧ (∀ pt, v.to_string (.Point pt) =
      v.pfx ++ toString major ++ "." ++ toString minor ++ "." ++ toString patch)
    ∧ v.to_string .Release =
      v.pfx ++ toString major ++ "." ++ toString minor ++ "." ++ toString patch
    ∧ v.to_string .Candidate =
      v.pfx ++ toString major ++ "." ++ toString minor ++ "." ++ toString patch
        ++ sc.candidate.delimiter ++ toString candidate
    ∧ v.to_string .Base =
      toString major ++ "." ++ toString minor ++ "." ++ toString patch := by
  refine ⟨fun s => ?_, fun pt => ?_, ?_, ?_, ?_⟩ <;>
    simp [Version.to_string, hv, hc]

/-- Witness for C7: the record `v1.2.3-rc4` renders as "v1.2.3" for point
and release kinds, "v1.2.3-rc4" for candidate, and "1.2.3" for base. -/
theorem to_string_spec_witness :
    wv_c.version_type = .SemVer 1 2 3 4
    ∧ wv_c.config = .SemVer wsc_w
    ∧ wv_c.to_string (.Point .Patch) = "v1.2.3"
    ∧ wv_c.to_string .Release = "v1.2.3"
    ∧ wv_c.to_string (.Pfx "w") = "v1.2.3"
    ∧ wv_c.to_string .Candidate = "v1.2.3-rc4"
    ∧ wv_c.to_string .Base = "1.2.3" := by
  have h := to_string_spec wv_c 1 2 3 4 wsc_w rfl rfl
  exact ⟨rfl, rfl, by simpa using h.2.1 .Patch, by simpa using h.2.2.1,
    by simpa using h.1 "w", by simpa using h.2.2.2.1, by simpa using h.2.2.2.2⟩

/-- C8: for every SemVer record with `candidate == 0`, a `Candidate` bump
followed by a `Release` bump succeeds and yields exactly the
major/minor/patch triple the promotion policy produced in the `Candidate`
step, with `candidate == 0`. -/
theorem candidate_then_release_spec (fmtTime fmtTime2 : String → String)
    (v : Version) (major minor patch : Nat) (sc : SemVerConfig)
    (hv : v.version_type = .SemVer major minor patch 0)
    (hc : v.config = .SemVer sc) :
    (v.bump fmtTime .Candidate).2 = .ok ()
    ∧ (v.bump fmtTime .Candidate).1.version_type =
        .SemVer (promote sc.candidate.promotion major minor patch).1
          (promote sc.candidate.promotion major minor patch).2.1
          (promote sc.candidate.promotion major minor patch).2.2 1
    ∧ ((v.bump fmtTime .Candidate).1.bump fmtTime2 .Release).2 = .ok ()
    ∧ ((v.bump fmtTime .Candidate).1.bump fmtTime2 .Release).1.version_type =
        .SemVer (promote sc.candidate.promotion major minor patch).1
          (promote sc.candidate.promotion major minor patch).2.1
          (promote sc.candidate.promotion major minor patch).2.2 0 := by
  have hstep : v.bump fmtTime .Candidate =
      ({ v with timestamp := get_time fmtTime sc.format.timestamp
                version_type :=
                  .SemVer (promote sc.candidate.promotion major minor patch).1
                    (promote sc.candidate.promotion major minor patch).2.1
                    (promote sc.candidate.promotion major minor patch).2.2 1 }, .ok ()) :=
    (candidate_bump_spec fmtTime v major minor patch 0 sc hv hc).2.1 rfl
  refine ⟨by simp [hstep], by simp [hstep], ?_, ?_⟩ <;>
    · rw [hstep]
      simp [Version.bump, hc]

/-- Witness for C8: the spec's example — `v1.2.3`, candidate 0, promotion
`"minor"`: bump `Candidate` reaches `1.3.0-rc1`, bump `Release` then yields
`1.3.0` with candidate 0. -/
theorem candidate_then_release_spec_witness :
    wv_w.version_type = .SemVer 1 2 3 0
    ∧ wv_w.config = .SemVer wsc_w
    ∧ (wv_w.bump wfmt_w .Candidate).1.version_type = .SemVer 1 3 0 1
    ∧ ((wv_w.bump wfmt_w .Candidate).1.bump wfmt_w .Release).2 = .ok ()
    ∧ ((wv_w.bump wfmt_w .Candidate).1.bump wfmt_w .Release).1.version_type =
        .SemVer 1 3 0 0 := by
  have h := candidate_then_release_spec wfmt_w wfmt_w wv_w 1 2 3 wsc_w rfl rfl
  exact ⟨rfl, rfl, by simpa using h.2.1, h.2.2.1, by simpa using h.2.2.2⟩

/-- An unrecognized development promotion policy falls back to the short
commit id, exactly like `"git_sha"`. -/
lemma get_development_suffix_default (git : GitState) (v : Version) (sc : SemVerConfig)
    (hc : v.config = .SemVer sc)
    (h1 : sc.development.promotion ≠ "git_sha")
    (h2 : sc.development.promotion ≠ "branch")
    (h3 : sc.development.promotion ≠ "full") :
    get_development_suffix git v = git.sha.mapError BumpError.Git := by
  simp [get_development_suffix, hc, h1, h2, h3]

/-- C6: for every SemVer record, the fully-qualified render starts from the
Display form (`candidate == 0`) or Candidate form (`candidate > 0`). When
source control is unavailable that plain form is returned without error;
when the current commit is exactly tagged the development suffix is
omitted; otherwise the development delimiter plus a suffix is appended — the
short commit id for policy `"git_sha"`, the branch name for `"branch"`,
branch `"_"` sha for `"full"`, and the short commit id for any unrecognized
policy. -/
theorem fully_qualified_string_spec (git : GitState) (v : Version)
    (major minor patch candidate : Nat) (sc : SemVerConfig)
    (hv : v.version_type = .SemVer major minor patch candidate)
    (hc : v.config = .SemVer sc) :
    (git.is_repo = false →
      v.fully_qualified_string git =
        .ok (if 0 < candidate then v.to_string .Candidate else v.to_string .Release))
    ∧ (git.is_repo = true → except_is_ok git.exact_tag = true →
      v.fully_qualified_string git =
        .ok (if 0 < candidate then v.to_string .Candidate else v.to_string .Release))
    ∧ (git.is_repo = true → except_is_ok git.exact_tag = false →
      ((sc.development.promotion = "git_sha" → ∀ s, git.sha = .ok s →
        v.fully_qualified_string git =
          .ok ((if 0 < candidate then v.to_string .Candidate else v.to_string .Release)
            ++ sc.development.delimiter ++ s))
      ∧ (sc.development.promotion = "branch" → ∀ b, git.branch = .ok b →
        v.fully_qualified_string git =
          .ok ((if 0 < candidate then v.to_string .Candidate else v.to_string .Release)
            ++ sc.development.delimiter ++ b))
      ∧ (sc.development.promotion = "full" → ∀ b s, git.branch = .ok b → git.sha = .ok s →
        v.fully_qualified_string git =
          .ok ((if 0 < candidate then v.to_string .Candidate else v.to_string .Release)
            ++ sc.development.delimiter ++ (b ++ "_" ++ s)))
      ∧ (sc.development.promotion ≠ "git_sha" → sc.development.promotion ≠ "branch" →
          sc.development.promotion ≠ "full" → ∀ s, git.sha = .ok s →
        v.fully_qualified_string git =
          .ok ((if 0 < candidate then v.to_string .Candidate else v.to_string .Release)
            ++ sc.development.delimiter ++ s)))) := by
  refine ⟨?_, ?_, ?_⟩
  · intro hrepo
    cases candidate with
    | zero => simp [Version.fully_qualified_string, Version.to_string, hv, hc, hrepo]
    | succ c => simp [Version.fully_qualified_string, Version.to_string, hv, hc, hrepo]
  · intro hrepo htag
    cases candidate with
    | zero => simp [Version.fully_qualified_string, Version.to_string, hv, hc, hrepo, htag]
    | succ c => simp [Version.fully_qualified_string, Version.to_string, hv, hc, hrepo, htag]
  · intro hrepo htag
    refine ⟨?_, ?_, ?_, ?_⟩
    · intro hp s hsha
      cases candidate with
      | zero =>
        simp [Version.fully_qualified_string, Version.to_string, get_development_suffix,
          hv, hc, hrepo, htag, hp, hsha, Except.mapError]
      | succ c =>
        simp [Version.fully_qualified_string, Version.to_string, get_development_suffix,
          hv, hc, hrepo, htag, hp, hsha, Except.mapError]
    · intro hp b hbr
      cases candidate with
      | zero =>
        simp [Version.fully_qualified_string, Version.to_string, get_development_suffix,
          hv, hc, hrepo, htag, hp, hbr, Except.mapError]
      | succ c =>
        simp [Version.fully_qualified_string, Version.to_string, get_development_suffix,
          hv, hc, hrepo, htag, hp, hbr, Except.mapError]
    · intro hp b s hbr hsha
      cases candidate with
      | zero =>
        simp [Version.fully_qualified_string, Version.to_string, get_development_suffix,
          hv, hc, hrepo, htag, hp, hbr, hsha, Except.mapError, Bind.bind, Except.bind,
          Pure.pure, Except.pure]
      | succ c =>
        simp [Version.fully_qualified_string, Version.to_string, get_development_suffix,
          hv, hc, hrepo, htag, hp, hbr, hsha, Except.mapError, Bind.bind, Except.bind,
          Pure.pure, Except.pure]
    · intro h1 h2 h3 s hsha
      have hdef := get_development_suffix_default git v sc hc h1 h2 h3
      cases candidate with
      | zero =>
        simp [Version.fully_qualified_string, Version.to_string,
          hv, hc, hrepo, htag, hdef, hsha, Except.mapError]
      | succ c =>
        simp [Version.fully_qualified_string, Version.to_string,
          hv, hc, hrepo, htag, hdef, hsha, Except.mapError]

/-- Witness for C6: the record `v1.2.3` in an untagged repository with
policy `"git_sha"`, commit `abc1234`, renders as "v1.2.3+abc1234"; outside a
repository it renders as plain "v1.2.3". -/
theorem fully_qualified_string_spec_witness :
    wv_w.version_type = .SemVer 1 2 3 0
    ∧ wv_w.config = .SemVer wsc_w
    ∧ git_w.is_repo = true
    ∧ except_is_ok git_w.exact_tag = false
    ∧ wsc_w.development.promotion = "git_sha"
    ∧ git_w.sha = .ok "abc1234"
    ∧ wv_w.fully_qualified_string git_w = .ok "v1.2.3+abc1234"
    ∧ wv_w.fully_qualified_string { git_w with is_repo := false } = .ok "v1.2.3" := by
  have h := ((fully_qualified_string_spec git_w wv_w 1 2 3 0 wsc_w rfl rfl).2.2
    rfl rfl).1 rfl "abc1234" rfl
  have h2 := (fully_qualified_string_spec { git_w with is_repo := false } wv_w
    1 2 3 0 wsc_w rfl rfl).1 rfl
  exact ⟨rfl, rfl, rfl, rfl, rfl, rfl, by simpa using h, by simpa using h2⟩

/-- C9 counterexample: in `"v1.2"` the PATCH group of the free-form grammar
is missing, yet the parser returns the single generic error
"invalid version format", which names no field. -/
theorem from_string_missing_group_generic_error :
    Version.from_string "v1.2" = .error (.ParseError "invalid version format")
    ∧ "invalid version format" ∉
        (["invalid MAJOR value", "invalid MINOR value",
          "invalid PATCH value", "invalid CANDIDATE value"] : List String) :=
  ⟨rfl, by decide⟩

/-- C9 (amended): every input string in which a required numeric group of
the free-form grammar is missing fails the regex match and yields the one
generic parse error "invalid version format"; the errors naming a field
(MAJOR, MINOR, PATCH, CANDIDATE) are produced only when the corresponding
matched digit group fails the `u32` parse — it contains a non-ASCII Unicode
decimal digit (which `\d` matches but `parse` rejects) or it overflows
32 bits. -/
theorem from_string_error_spec (s : String) :
    (regex_captures s = none →
      Version.from_string s = .error (.ParseError "invalid version format"))
    ∧ (∀ caps, regex_captures s = some caps →
      (parse_u32 caps.majorS = none →
        Version.from_string s = .error (.ParseError "invalid MAJOR value"))
      ∧ (∀ major, parse_u32 caps.majorS = some major →
          parse_u32 caps.minorS = none →
        Version.from_string s = .error (.ParseError "invalid MINOR value"))
      ∧ (∀ major minor, parse_u32 caps.majorS = some major →
          parse_u32 caps.minorS = some minor → parse_u32 caps.patchS = none →
        Version.from_string s = .error (.ParseError "invalid PATCH value"))
      ∧ (∀ major minor patch cs, parse_u32 caps.majorS = some major →
          parse_u32 caps.minorS = some minor → parse_u32 caps.patchS = some patch →
          caps.candidateS = some cs → parse_u32 cs = none →
        Version.from_string s = .error (.ParseError "invalid CANDIDATE value"))) := by
  constructor
  · intro hnone
    simp [Version.from_string, hnone]
  · intro caps hcaps
    refine ⟨?_, ?_, ?_, ?_⟩
    · intro hmaj
      simp [Version.from_string, hcaps, hmaj]
    · intro major hmaj hmin
      simp [Version.from_string, hcaps, hmaj, hmin]
    · intro major minor hmaj hmin hpat
      simp [Version.from_string, hcaps, hmaj, hmin, hpat]
    · intro major minor patch cs hmaj hmin hpat hcand hc32
      simp [Version.from_string, hcaps, hmaj, hmin, hpat, hcand, hc32]

/-- Witness for C9 (amended): `"abc"` fails the regex match and gives the
generic error; `"v99999999999.0.0"` matches but its MAJOR group overflows
32 bits and gives the MAJOR-naming error; `"v١.2.3"` (Arabic-Indic digit
one, U+0661, in `Nd`) matches the regex but its MAJOR group fails the
ASCII-only `u32` parse without any overflow, also giving the MAJOR-naming
error; `"1.2.3-rc٥"` likewise gives the CANDIDATE-naming error. -/
theorem from_string_error_spec_witness :
    regex_captures "abc" = none
    ∧ Version.from_string "abc" = .error (.ParseError "invalid version format")
    ∧ regex_captures "v99999999999.0.0" =
        some { pfx := "v", majorS := "99999999999", minorS := "0", patchS := "0",
               candidateS := none }
    ∧ parse_u32 "99999999999" = none
    ∧ Version.from_string "v99999999999.0.0" =
        .error (.ParseError "invalid MAJOR value")
    ∧ regex_captures "v١.2.3" =
        some { pfx := "v", majorS := "١", minorS := "2", patchS := "3",
               candidateS := none }
    ∧ parse_u32 "١" = none
    ∧ Version.from_string "v١.2.3" = .error (.ParseError "invalid MAJOR value")
    ∧ regex_captures "1.2.3-rc٥" =
        some { pfx := "", majorS := "1", minorS := "2", patchS := "3",
               candidateS := some "٥" }
    ∧ parse_u32 "٥" = none
    ∧ Version.from_string "1.2.3-rc٥" =
        .error (.ParseError "invalid CANDIDATE value") := by
  refine ⟨by decide, (from_string_error_spec "abc").1 (by decide), by decide, by decide,
    ((from_string_error_spec "v99999999999.0.0").2
      { pfx := "v", majorS := "99999999999", minorS := "0", patchS := "0",
        candidateS := none } (by decide)).1 (by decide),
    by decide, by decide,
    ((from_string_error_spec "v١.2.3").2
      { pfx := "v", majorS := "١", minorS := "2", patchS := "3",
        candidateS := none } (by decide)).1 (by decide),
    by decide, by decide,
    ((from_string_error_spec "1.2.3-rc٥").2
      { pfx := "", majorS := "1", minorS := "2", patchS := "3",
        candidateS := some "٥" } (by decide)).2.2.2 1 2 3 "٥"
      (by decide) (by decide) (by decide) (by decide) (by decide)⟩
